import Mathlib

/-!
Verification of the product-service core (entity module, repository, service)
against its natural-language specification.

Shallow embedding conventions:
- Go `float64` prices are modelled as `Rat` (the validation logic only
  compares against 0, where rational and float order agree on the values
  the service handles).
- Go `int` stock is modelled as `Int`; timestamps (`time.Time`) as `Nat`
  instants supplied by the caller (`time.Now()` becomes a `now` parameter).
- Go pointer-optional fields (`*string` etc. in `UpdateProductRequest`)
  become `Option`.
- The DynamoDB table is modelled as a `List Product` keyed by `id`:
  `PutItem` overwrites the item with the same key, `GetItem` is a point
  lookup, `Scan` with a filter expression is `List.filter`, `DeleteItem`
  removes by key.  Transport-level failures (`PersistenceError`) are not
  modelled: every store call that reaches the store succeeds.
- `uuid.New().String()` (google/uuid) becomes `uuidString` applied to the
  16 random bytes; the service functions take the byte source and `now`
  as explicit parameters.
- Fallible service operations return `Except ServiceError α`.
-/

namespace ProductService

/-- Error taxonomy of the service layer: `ErrInvalidProduct` wrapping a
reason, `ErrProductNotFound`. -/
inductive ServiceError where
  | invalidInput (reason : String)
  | notFound
deriving Repr, DecidableEq

/-- `models.Product` from src/unnamed/part_002 (package models). -/
structure Product where
  id : String
  name : String
  description : String
  price : Rat
  category : String
  sku : String
  stock : Int
  isActive : Bool
  createdAt : Nat
  updatedAt : Nat
deriving Repr, DecidableEq

/-- `models.CreateProductRequest`. -/
structure CreateProductRequest where
  name : String
  description : String
  price : Rat
  category : String
  sku : String
  stock : Int
deriving Repr, DecidableEq

/-- `models.UpdateProductRequest`: every field is a Go pointer, i.e.
present (`some`) or absent (`none`). -/
structure UpdateProductRequest where
  name : Option String := none
  description : Option String := none
  price : Option Rat := none
  category : Option String := none
  sku : Option String := none
  stock : Option Int := none
  isActive : Option Bool := none
deriving Repr, DecidableEq

/-- One hex digit, lowercase, as produced by google/uuid's `String()`. -/
def hexChar (n : Nat) : Char :=
  if n % 16 < 10 then Char.ofNat (48 + n % 16) else Char.ofNat (87 + n % 16)

/-- Two-hex-digit rendering of one byte. -/
def byteHex (b : Nat) : List Char :=
  [hexChar (b / 16), hexChar b]

/-- `uuid.New().String()`: the canonical 8-4-4-4-12 hyphenated hex form of
the 16 random bytes (the version/variant bit fiddling of `uuid.New` does
not affect the shape of the string and is irrelevant to the claims). -/
def uuidString (b : Fin 16 → Nat) : String :=
  String.mk (byteHex (b 0) ++ byteHex (b 1) ++ byteHex (b 2) ++ byteHex (b 3)
    ++ ['-'] ++ byteHex (b 4) ++ byteHex (b 5)
    ++ ['-'] ++ byteHex (b 6) ++ byteHex (b 7)
    ++ ['-'] ++ byteHex (b 8) ++ byteHex (b 9)
    ++ ['-'] ++ byteHex (b 10) ++ byteHex (b 11) ++ byteHex (b 12)
    ++ byteHex (b 13) ++ byteHex (b 14) ++ byteHex (b 15))

/-- `models.NewProduct(req)`: fresh id from the uuid generator, fields
copied from the request, `IsActive = true`, `CreatedAt = UpdatedAt = now`. -/
def NewProduct (b : Fin 16 → Nat) (now : Nat) (req : CreateProductRequest) : Product :=
  { id := uuidString b
    name := req.name
    description := req.description
    price := req.price
    category := req.category
    sku := req.sku
    stock := req.stock
    isActive := true
    createdAt := now
    updatedAt := now }

/-- `(*Product).Update(req)`: overwrite each field whose request entry is
present, leave absent fields alone, always set `UpdatedAt = now`. -/
def Product.Update (p : Product) (req : UpdateProductRequest) (now : Nat) : Product :=
  { p with
    name := req.name.getD p.name
    description := req.description.getD p.description
    price := req.price.getD p.price
    category := req.category.getD p.category
    sku := req.sku.getD p.sku
    stock := req.stock.getD p.stock
    isActive := req.isActive.getD p.isActive
    updatedAt := now }

/-! ## Repository (src/internal/repository/product_repository.go)

The DynamoDB table contents are a `Store := List Product`; the repository
operations below are the pure content of `productRepository`'s methods. -/

abbrev Store := List Product

/-- DynamoDB `PutItem`: unconditional overwrite of the item keyed by
`p.id` (used by both repository `Create` and `Update`). -/
def putItem (store : Store) (p : Product) : Store :=
  p :: store.filter (fun q => ¬ (q.id = p.id))

/-- `productRepository.Create`: marshal and `PutItem` (overwrite). -/
def repoCreate (store : Store) (p : Product) : Store :=
  putItem store p

/-- `productRepository.GetByID`: point lookup; `none` (Go `nil, nil`) when
the key does not exist. -/
def repoGetByID (store : Store) (id : String) : Option Product :=
  store.find? (fun q => q.id = id)

/-- `productRepository.GetAll`: scan filtered to `is_active = true`. -/
def repoGetAll (store : Store) : List Product :=
  store.filter (fun p => p.isActive)

/-- `productRepository.GetByCategory`: scan filtered to
`category = :category AND is_active = true`. -/
def repoGetByCategory (store : Store) (category : String) : List Product :=
  store.filter (fun p => p.category = category ∧ p.isActive)

/-- `productRepository.Update`: same mechanics as Create — `PutItem`
overwrite keyed by `id`. -/
def repoUpdate (store : Store) (p : Product) : Store :=
  putItem store p

/-- `productRepository.Delete`: unconditional `DeleteItem` by key; deleting
an absent key is not an error. -/
def repoDelete (store : Store) (id : String) : Store :=
  store.filter (fun q => ¬ (q.id = id))

/-! ## Service (src/internal/service/product_service.go) -/

/-- `validateCreateRequest`: returns the first violation's message, `none`
when the request is valid.  Checks in source order: name, price, category,
SKU, stock. -/
def validateCreateRequest (req : CreateProductRequest) : Option String :=
  if req.name = "" then some "product name is required"
  else if req.price ≤ 0 then some "product price must be greater than 0"
  else if req.category = "" then some "product category is required"
  else if req.sku = "" then some "product SKU is required"
  else if req.stock < 0 then some "product stock cannot be negative"
  else none

/-- `validateUpdateRequest`: each rule fires only when the field is
present.  Checks in source order: price, stock, name, category, SKU. -/
def validateUpdateRequest (req : UpdateProductRequest) : Option String :=
  if req.price.any (fun x => decide (x ≤ 0)) then
    some "product price must be greater than 0"
  else if req.stock.any (fun x => decide (x < 0)) then
    some "product stock cannot be negative"
  else if req.name.any (fun n => decide (n = "")) then
    some "product name cannot be empty"
  else if req.category.any (fun c => decide (c = "")) then
    some "product category cannot be empty"
  else if req.sku.any (fun k => decide (k = "")) then
    some "product SKU cannot be empty"
  else none

/-- `productService.CreateProduct`: validate, construct via `NewProduct`,
persist via repository Create, return the created record with the new
store contents. -/
def CreateProduct (b : Fin 16 → Nat) (now : Nat) (store : Store)
    (req : CreateProductRequest) : Except ServiceError (Product × Store) :=
  match validateCreateRequest req with
  | some msg => .error (.invalidInput msg)
  | none =>
    let product := NewProduct b now req
    .ok (product, repoCreate store product)

/-- `productService.GetProduct`. -/
def GetProduct (store : Store) (id : String) : Except ServiceError Product :=
  if id = "" then .error (.invalidInput "product ID cannot be empty")
  else
    match repoGetByID store id with
    | none => .error .notFound
    | some product => .ok product

/-- `productService.GetAllProducts`: delegates to the repository. -/
def GetAllProducts (store : Store) : Except ServiceError (List Product) :=
  .ok (repoGetAll store)

/-- `productService.GetProductsByCategory`. -/
def GetProductsByCategory (store : Store) (category : String) :
    Except ServiceError (List Product) :=
  if category = "" then .error (.invalidInput "category cannot be empty")
  else .ok (repoGetByCategory store category)

/-- A repository call made by the service, for tracing which operations a
service method performed. -/
inductive RepoOp where
  | getByID (id : String)
  | update (p : Product)
  | delete (id : String)
  | create (p : Product)
deriving Repr, DecidableEq

/-- `productService.UpdateProduct`, instrumented: result, resulting store
contents, and the repository calls made, in order.  Control flow follows
the source: empty-id check, `GetByID`, nil check, `validateUpdateRequest`,
`product.Update(req)`, repository `Update`. -/
def UpdateProductT (now : Nat) (store : Store) (id : String)
    (req : UpdateProductRequest) :
    Except ServiceError Product × Store × List RepoOp :=
  if id = "" then
    (.error (.invalidInput "product ID cannot be empty"), store, [])
  else
    match repoGetByID store id with
    | none => (.error .notFound, store, [.getByID id])
    | some product =>
      match validateUpdateRequest req with
      | some msg => (.error (.invalidInput msg), store, [.getByID id])
      | none =>
        let updated := product.Update req now
        (.ok updated, repoUpdate store updated, [.getByID id, .update updated])

/-- `productService.UpdateProduct`: result and resulting store contents. -/
def UpdateProduct (now : Nat) (store : Store) (id : String)
    (req : UpdateProductRequest) : Except ServiceError Product × Store :=
  ((UpdateProductT now store id req).1, (UpdateProductT now store id req).2.1)

/-- `productService.DeleteProduct`: empty-id check, existence check via
`GetByID` (`NotFoundError` when absent), then repository `Delete`. -/
def DeleteProduct (store : Store) (id : String) :
    Except ServiceError Unit × Store :=
  if id = "" then (.error (.invalidInput "product ID cannot be empty"), store)
  else
    match repoGetByID store id with
    | none => (.error .notFound, store)
    | some _ => (.ok (), repoDelete store id)

/-! ## Spec-side validity predicates (from the spec's validation rules) -/

/-- Create validity per the spec: name non-empty; price > 0; category
non-empty; sku non-empty; stock ≥ 0. -/
def createReqOK (req : CreateProductRequest) : Prop :=
  req.name ≠ "" ∧ 0 < req.price ∧ req.category ≠ "" ∧ req.sku ≠ "" ∧ 0 ≤ req.stock

/-- Update validity per the spec: each rule applies only to a present
field; absent fields are never validated. -/
def updateReqOK (req : UpdateProductRequest) : Prop :=
  (∀ x, req.price = some x → 0 < x) ∧
  (∀ s, req.stock = some s → 0 ≤ s) ∧
  (∀ n, req.name = some n → n ≠ "") ∧
  (∀ c, req.category = some c → c ≠ "") ∧
  (∀ k, req.sku = some k → k ≠ "")

/-! ## Helper lemmas -/

theorem validateCreate_eq_none_iff (req : CreateProductRequest) :
    validateCreateRequest req = none ↔ createReqOK req := by
  unfold validateCreateRequest createReqOK
  split_ifs with h1 h2 h3 h4 h5 <;>
    simp_all [not_le, not_lt]

theorem option_any_false {α} (p : α → Bool) (o : Option α) :
    o.any p = false ↔ ∀ a, o = some a → p a = false := by
  cases o <;> simp [Option.any]

theorem option_any_true {α} (p : α → Bool) (o : Option α) :
    o.any p = true ↔ ∃ a, o = some a ∧ p a = true := by
  cases o <;> simp [Option.any]

theorem validateUpdate_eq_none_iff (req : UpdateProductRequest) :
    validateUpdateRequest req = none ↔ updateReqOK req := by
  unfold validateUpdateRequest updateReqOK
  split_ifs with h1 h2 h3 h4 h5
  case _ =>
    rw [option_any_true] at h1
    obtain ⟨x, hx, hle⟩ := h1
    simp only [decide_eq_true_eq] at hle
    simp only [reduceCtorEq, false_iff, not_and]
    intro hp
    exact absurd (hp x hx) (not_lt.mpr hle)
  case _ =>
    rw [option_any_true] at h2
    obtain ⟨x, hx, hlt⟩ := h2
    simp only [decide_eq_true_eq] at hlt
    simp only [reduceCtorEq, false_iff, not_and]
    intro _ hs
    exact absurd (hs x hx) (not_le.mpr hlt)
  case _ =>
    rw [option_any_true] at h3
    obtain ⟨x, hx, he⟩ := h3
    simp only [decide_eq_true_eq] at he
    simp only [reduceCtorEq, false_iff, not_and]
    intro _ _ hn
    exact absurd he (hn x hx)
  case _ =>
    rw [option_any_true] at h4
    obtain ⟨x, hx, he⟩ := h4
    simp only [decide_eq_true_eq] at he
    simp only [reduceCtorEq, false_iff, not_and]
    intro _ _ _ hc
    exact absurd he (hc x hx)
  case _ =>
    rw [option_any_true] at h5
    obtain ⟨x, hx, he⟩ := h5
    simp only [decide_eq_true_eq] at he
    simp only [reduceCtorEq, false_iff, not_and]
    intro _ _ _ _ hk
    exact absurd he (hk x hx)
  case _ =>
    rw [Bool.not_eq_true, option_any_false] at h1 h2 h3 h4 h5
    simp only [decide_eq_false_iff_not, not_le, not_lt] at h1 h2
    simp only [decide_eq_false_iff_not] at h3 h4 h5
    simp only [true_iff]
    exact ⟨h1, h2, h3, h4, h5⟩

theorem uuidString_ne_empty (b : Fin 16 → Nat) : uuidString b ≠ "" := by
  simp [uuidString, byteHex, String.ext_iff]

theorem repoGetByID_absent (store : Store) (id : String)
    (h : ∀ p ∈ store, p.id ≠ id) : repoGetByID store id = none := by
  rw [repoGetByID, List.find?_eq_none]
  intro p hp
  simpa using h p hp

theorem repoGetByID_delete (store : Store) (id : String) :
    repoGetByID (repoDelete store id) id = none := by
  rw [repoGetByID, List.find?_eq_none]
  intro p hp
  rw [repoDelete, List.mem_filter] at hp
  simpa using hp.2

theorem repoDelete_idem (store : Store) (id : String) :
    repoDelete (repoDelete store id) id = repoDelete store id := by
  induction store with
  | nil => rfl
  | cons a l ih =>
    by_cases h : a.id = id
    · simp [repoDelete, List.filter_cons, h]
    · simp [repoDelete, List.filter_cons, h]

theorem repoGetByID_mem (store : Store) (p : Product)
    (hu : store.Pairwise (fun a b => a.id ≠ b.id)) (hp : p ∈ store) :
    repoGetByID store p.id = some p := by
  induction store with
  | nil => cases hp
  | cons a l ih =>
    rcases List.mem_cons.mp hp with h | h
    · subst h
      simp [repoGetByID, List.find?_cons]
    · have hne : a.id ≠ p.id := (List.pairwise_cons.mp hu).1 p h
      have hrec := ih (List.pairwise_cons.mp hu).2 h
      rw [repoGetByID] at hrec ⊢
      rw [List.find?_cons]
      simp only [hne, decide_eq_true_eq, if_neg]
      simpa [hne] using hrec

/-! ## Claims -/

/-- C2: `Product.Update` overwrites exactly the fields present in the
request, leaves every absent field unchanged, never changes `id` or
`createdAt`, and sets `updatedAt` to `now` even when no field is
present. -/
theorem product_update_frame (p : Product) (req : UpdateProductRequest) (now : Nat) :
    (p.Update req now).id = p.id ∧
    (p.Update req now).createdAt = p.createdAt ∧
    (p.Update req now).updatedAt = now ∧
    (∀ v, req.name = some v → (p.Update req now).name = v) ∧
    (req.name = none → (p.Update req now).name = p.name) ∧
    (∀ v, req.description = some v → (p.Update req now).description = v) ∧
    (req.description = none → (p.Update req now).description = p.description) ∧
    (∀ v, req.price = some v → (p.Update req now).price = v) ∧
    (req.price = none → (p.Update req now).price = p.price) ∧
    (∀ v, req.category = some v → (p.Update req now).category = v) ∧
    (req.category = none → (p.Update req now).category = p.category) ∧
    (∀ v, req.sku = some v → (p.Update req now).sku = v) ∧
    (req.sku = none → (p.Update req now).sku = p.sku) ∧
    (∀ v, req.stock = some v → (p.Update req now).stock = v) ∧
    (req.stock = none → (p.Update req now).stock = p.stock) ∧
    (∀ v, req.isActive = some v → (p.Update req now).isActive = v) ∧
    (req.isActive = none → (p.Update req now).isActive = p.isActive) := by
  refine ⟨rfl, rfl, rfl, ?_, ?_, ?_, ?_, ?_, ?_, ?_, ?_, ?_, ?_, ?_, ?_, ?_, ?_⟩ <;>
    intro h <;> try intro hv
  all_goals simp_all [Product.Update]

/-- C2 witness: the empty update request leaves every domain field of a
concrete product unchanged and still refreshes `updatedAt`. -/
theorem product_update_frame_witness :
    (({ id := "id1", name := "Widget", description := "", price := 999/100,
        category := "tools", sku := "W-1", stock := 5, isActive := true,
        createdAt := 1, updatedAt := 1 : Product }).Update {} 7).name = "Widget" ∧
    (({ id := "id1", name := "Widget", description := "", price := 999/100,
        category := "tools", sku := "W-1", stock := 5, isActive := true,
        createdAt := 1, updatedAt := 1 : Product }).Update {} 7).updatedAt = 7 := by
  have h := product_update_frame
    { id := "id1", name := "Widget", description := "", price := 999/100,
      category := "tools", sku := "W-1", stock := 5, isActive := true,
      createdAt := 1, updatedAt := 1 } {} 7
  exact ⟨h.2.2.2.2.1 rfl, h.2.2.1⟩

/-- C4: `NewProduct` yields a product whose id is the freshly generated
uuid string (hence non-empty), whose fields are copied from the request,
with `isActive = true` and `createdAt = updatedAt = now`. -/
theorem newProduct_spec (b : Fin 16 → Nat) (now : Nat) (req : CreateProductRequest) :
    (NewProduct b now req).id = uuidString b ∧
    (NewProduct b now req).id ≠ "" ∧
    (NewProduct b now req).name = req.name ∧
    (NewProduct b now req).description = req.description ∧
    (NewProduct b now req).price = req.price ∧
    (NewProduct b now req).category = req.category ∧
    (NewProduct b now req).sku = req.sku ∧
    (NewProduct b now req).stock = req.stock ∧
    (NewProduct b now req).isActive = true ∧
    (NewProduct b now req).createdAt = now ∧
    (NewProduct b now req).updatedAt = now :=
  ⟨rfl, uuidString_ne_empty b, rfl, rfl, rfl, rfl, rfl, rfl, rfl, rfl, rfl⟩

/-- A concrete active product used by witnesses. -/
def wProduct : Product :=
  { id := "id1", name := "Widget", description := "", price := 10,
    category := "tools", sku := "W-1", stock := 5, isActive := true,
    createdAt := 1, updatedAt := 1 }

/-- A concrete soft-deactivated product used by witnesses. -/
def wHidden : Product :=
  { id := "id2", name := "Hidden", description := "", price := 3,
    category := "tools", sku := "H-1", stock := 2, isActive := false,
    createdAt := 1, updatedAt := 1 }

/-- C3: CreateProduct succeeds iff the request satisfies the create
rules; on failure the reported reason is the first violation in the
fixed order (name, price, category, SKU, stock) computed by
`validateCreateRequest`, wrapped in InvalidInputError; in particular an
empty name yields the name-is-required reason. -/
theorem createProduct_spec (b : Fin 16 → Nat) (now : Nat) (store : Store)
    (req : CreateProductRequest) :
    ((∃ r, CreateProduct b now store req = .ok r) ↔ createReqOK req) ∧
    (¬ createReqOK req → ∃ msg, validateCreateRequest req = some msg ∧
      CreateProduct b now store req = .error (.invalidInput msg)) ∧
    (req.name = "" →
      CreateProduct b now store req = .error (.invalidInput "product name is required")) := by
  refine ⟨⟨?_, ?_⟩, ?_, ?_⟩
  · rintro ⟨r, hr⟩
    rw [CreateProduct] at hr
    cases hv : validateCreateRequest req with
    | some msg => rw [hv] at hr; cases hr
    | none => exact (validateCreate_eq_none_iff req).mp hv
  · intro hok
    rw [CreateProduct, (validateCreate_eq_none_iff req).mpr hok]
    exact ⟨_, rfl⟩
  · intro hbad
    cases hv : validateCreateRequest req with
    | none => exact absurd ((validateCreate_eq_none_iff req).mp hv) hbad
    | some msg => exact ⟨msg, rfl, by rw [CreateProduct, hv]⟩
  · intro hname
    rw [CreateProduct]
    unfold validateCreateRequest
    rw [if_pos hname]

/-- C3 witness: the spec's scenario — empty name, otherwise valid
request — fails with the name-is-required InvalidInputError. -/
theorem createProduct_spec_witness :
    CreateProduct (fun _ => 0) 0 []
      { name := "", description := "", price := 999/100, category := "tools",
        sku := "W-1", stock := 5 } =
      .error (.invalidInput "product name is required") :=
  (createProduct_spec (fun _ => 0) 0 []
    { name := "", description := "", price := 999/100, category := "tools",
      sku := "W-1", stock := 5 }).2.2 rfl

/-- C5: GetProduct rejects an empty id with InvalidInputError; the
repository returns `none` (Go `nil, nil`) for an absent key; the service
maps an absent result to NotFoundError; and an existing record is
returned unchanged, whatever its `isActive` value. -/
theorem getProduct_spec (store : Store) (id : String) :
    (id = "" → GetProduct store id = .error (.invalidInput "product ID cannot be empty")) ∧
    ((∀ p ∈ store, p.id ≠ id) → repoGetByID store id = none) ∧
    (id ≠ "" → repoGetByID store id = none → GetProduct store id = .error .notFound) ∧
    (∀ p, id ≠ "" → repoGetByID store id = some p → GetProduct store id = .ok p) := by
  refine ⟨?_, repoGetByID_absent store id, ?_, ?_⟩
  · intro h
    rw [GetProduct, if_pos h]
  · intro hne hnone
    simp [GetProduct, hne, hnone]
  · intro p hne hp
    simp [GetProduct, hne, hp]

/-- C5 witness: lookup on an empty store fails NotFound; lookup of a
stored inactive record still returns it. -/
theorem getProduct_spec_witness :
    GetProduct [] "missing-id" = .error .notFound ∧
    GetProduct [wHidden] "id2" = .ok wHidden :=
  ⟨(getProduct_spec [] "missing-id").2.2.1 (by decide) rfl,
   (getProduct_spec [wHidden] "id2").2.2.2 wHidden (by decide) rfl⟩

/-- C1: UpdateProduct rejects an empty id with InvalidInputError; with a
non-empty id it checks existence first, failing NotFound when the record
is absent regardless of the request's validity; then it validates the
request, failing InvalidInputError with the first violated present-field
rule; otherwise it applies the request to the loaded record, persists the
merged record via repository Update, and returns it. -/
theorem updateProduct_spec (now : Nat) (store : Store) (id : String)
    (req : UpdateProductRequest) :
    (id = "" →
      (UpdateProduct now store id req).1 = .error (.invalidInput "product ID cannot be empty")) ∧
    (id ≠ "" → repoGetByID store id = none →
      (UpdateProduct now store id req).1 = .error .notFound) ∧
    (∀ p, id ≠ "" → repoGetByID store id = some p → ¬ updateReqOK req →
      ∃ msg, validateUpdateRequest req = some msg ∧
        (UpdateProduct now store id req).1 = .error (.invalidInput msg)) ∧
    (∀ p, id ≠ "" → repoGetByID store id = some p → updateReqOK req →
      UpdateProduct now store id req =
        (.ok (p.Update req now), repoUpdate store (p.Update req now))) := by
  refine ⟨?_, ?_, ?_, ?_⟩
  · intro h
    simp [UpdateProduct, UpdateProductT, h]
  · intro hne hnone
    simp [UpdateProduct, UpdateProductT, hne, hnone]
  · intro p hne hp hbad
    cases hv : validateUpdateRequest req with
    | none => exact absurd ((validateUpdate_eq_none_iff req).mp hv) hbad
    | some msg =>
      exact ⟨msg, rfl, by simp [UpdateProduct, UpdateProductT, hne, hp, hv]⟩
  · intro p hne hp hok
    have hv := (validateUpdate_eq_none_iff req).mpr hok
    simp [UpdateProduct, UpdateProductT, hne, hp, hv]

/-- C1 witness: updating a missing id with a request that is also invalid
(present empty name) fails NotFound — the existence check runs before
request validation. -/
theorem updateProduct_spec_witness :
    (UpdateProduct 5 [] "missing-id" { name := some "" }).1 = .error .notFound :=
  (updateProduct_spec 5 [] "missing-id" { name := some "" }).2.1 (by decide) rfl

/-- C6: DeleteProduct rejects an empty id, fails NotFound when the record
is absent (existence checked via GetByID before deleting); deleting an
existing record succeeds and a second service-level delete of the same id
fails NotFound, while the repository-level delete is idempotent. -/
theorem deleteProduct_spec (store : Store) (id : String) :
    (id = "" →
      DeleteProduct store id = (.error (.invalidInput "product ID cannot be empty"), store)) ∧
    (id ≠ "" → repoGetByID store id = none →
      DeleteProduct store id = (.error .notFound, store)) ∧
    (∀ p, id ≠ "" → repoGetByID store id = some p →
      DeleteProduct store id = (.ok (), repoDelete store id) ∧
      (DeleteProduct (repoDelete store id) id).1 = .error .notFound) ∧
    repoDelete (repoDelete store id) id = repoDelete store id := by
  refine ⟨?_, ?_, ?_, repoDelete_idem store id⟩
  · intro h
    rw [DeleteProduct, if_pos h]
  · intro hne hnone
    simp [DeleteProduct, hne, hnone]
  · intro p hne hp
    constructor
    · simp [DeleteProduct, hne, hp]
    · simp [DeleteProduct, hne, repoGetByID_delete store id]

/-- C6 witness: deleting the stored record succeeds and empties the
store; the second delete fails NotFound. -/
theorem deleteProduct_spec_witness :
    DeleteProduct [wProduct] "id1" = (.ok (), repoDelete [wProduct] "id1") ∧
    (DeleteProduct (repoDelete [wProduct] "id1") "id1").1 = .error .notFound :=
  (deleteProduct_spec [wProduct] "id1").2.2.1 wProduct (by decide) rfl

/-- C7: GetAll and GetByCategory (and the service wrappers returning
their results as-is) never return an inactive record; GetByCategory
returns only records of the given category; an inactive record remains
retrievable by GetByID. -/
theorem activeOnly_spec (store : Store) (category : String) (p : Product) :
    (p ∈ repoGetAll store → p.isActive = true) ∧
    (p ∈ repoGetByCategory store category → p.isActive = true ∧ p.category = category) ∧
    GetAllProducts store = .ok (repoGetAll store) ∧
    (category ≠ "" →
      GetProductsByCategory store category = .ok (repoGetByCategory store category)) ∧
    (store.Pairwise (fun a b => a.id ≠ b.id) → p ∈ store →
      repoGetByID store p.id = some p) := by
  refine ⟨?_, ?_, rfl, ?_, fun hu hp => repoGetByID_mem store p hu hp⟩
  · intro h
    simpa using (List.mem_filter.mp h).2
  · intro h
    have := (List.mem_filter.mp h).2
    simp only [decide_eq_true_eq] at this
    exact ⟨this.2, this.1⟩
  · intro h
    simp [GetProductsByCategory, h]

/-- C7 witness: with one active and one inactive record stored, GetAll
returns only the active one, GetByCategory likewise, and the inactive
record is still retrievable by its id. -/
theorem activeOnly_spec_witness :
    repoGetAll [wProduct, wHidden] = [wProduct] ∧
    repoGetByCategory [wProduct, wHidden] "tools" = [wProduct] ∧
    repoGetByID [wProduct, wHidden] wHidden.id = some wHidden :=
  ⟨by decide, by decide,
   (activeOnly_spec [wProduct, wHidden] "tools" wHidden).2.2.2.2
     (by decide) (by decide)⟩

/-- C8: at creation `createdAt = updatedAt`, so `updatedAt ≥ createdAt`;
and whenever the invariant holds and the update happens at a strictly
later instant (the clock advanced since the last write), `Product.Update`
preserves `updatedAt ≥ createdAt` and strictly advances `updatedAt`,
whatever fields the request contains. -/
theorem timestamps_spec (p : Product) (req : UpdateProductRequest)
    (b : Fin 16 → Nat) (creq : CreateProductRequest) (now later : Nat) :
    (NewProduct b now creq).createdAt ≤ (NewProduct b now creq).updatedAt ∧
    (p.createdAt ≤ p.updatedAt → p.updatedAt < later →
      (p.Update req later).createdAt ≤ (p.Update req later).updatedAt ∧
      p.updatedAt < (p.Update req later).updatedAt) := by
  refine ⟨le_refl _, fun h1 h2 => ⟨?_, ?_⟩⟩
  · simpa [Product.Update] using le_of_lt (lt_of_le_of_lt h1 h2)
  · simpa [Product.Update] using h2

/-- C8 witness: a concrete update at a later instant strictly advances
`updatedAt` and keeps it above `createdAt`. -/
theorem timestamps_spec_witness :
    (wProduct.Update {} 7).createdAt ≤ (wProduct.Update {} 7).updatedAt ∧
    wProduct.updatedAt < (wProduct.Update {} 7).updatedAt :=
  (timestamps_spec wProduct {} (fun _ => 0)
    { name := "x", description := "", price := 1, category := "c", sku := "s",
      stock := 0 } 0 7).2 (by decide) (by decide)

/-- C9: the all-absent update request passes validation; on an existing
record UpdateProduct succeeds with it, returns the record with every
domain field unchanged and `updatedAt` refreshed, and performs a
full-record store write via repository Update. -/
theorem emptyUpdate_spec (now : Nat) (store : Store) (id : String) (p : Product)
    (hne : id ≠ "") (hp : repoGetByID store id = some p) :
    validateUpdateRequest {} = none ∧
    UpdateProduct now store id {} =
      (.ok (p.Update {} now), repoUpdate store (p.Update {} now)) ∧
    p.Update {} now = { p with updatedAt := now } := by
  refine ⟨rfl, ?_, ?_⟩
  · simp [UpdateProduct, UpdateProductT, hne, hp, validateUpdateRequest]
  · simp [Product.Update]

/-- C9 witness: the empty update on the stored record succeeds, leaves
all domain fields unchanged, refreshes `updatedAt`, and writes through
the repository. -/
theorem emptyUpdate_spec_witness :
    validateUpdateRequest {} = none ∧
    UpdateProduct 7 [wProduct] "id1" {} =
      (.ok (wProduct.Update {} 7), repoUpdate [wProduct] (wProduct.Update {} 7)) ∧
    wProduct.Update {} 7 = { wProduct with updatedAt := 7 } :=
  emptyUpdate_spec 7 [wProduct] "id1" wProduct (by decide) rfl

/-- C10: UpdateProduct is atomic on failure — whenever it returns an
error, the store contents are unchanged and no repository Update call was
made. -/
theorem updateProduct_atomic (now : Nat) (store : Store) (id : String)
    (req : UpdateProductRequest) (e : ServiceError)
    (h : (UpdateProductT now store id req).1 = .error e) :
    (UpdateProductT now store id req).2.1 = store ∧
    ∀ q : Product, RepoOp.update q ∉ (UpdateProductT now store id req).2.2 := by
  by_cases hid : id = ""
  · exact ⟨by simp [UpdateProductT, hid], fun q => by simp [UpdateProductT, hid]⟩
  · cases hg : repoGetByID store id with
    | none =>
      exact ⟨by simp [UpdateProductT, hid, hg],
        fun q => by simp [UpdateProductT, hid, hg]⟩
    | some p =>
      cases hv : validateUpdateRequest req with
      | some msg =>
        exact ⟨by simp [UpdateProductT, hid, hg, hv],
          fun q => by simp [UpdateProductT, hid, hg, hv]⟩
      | none =>
        exfalso
        rw [UpdateProductT] at h
        simp [hid, hg, hv] at h

/-- C10 witness: a failing update (invalid request on an existing record)
leaves the store unchanged and never invokes repository Update. -/
theorem updateProduct_atomic_witness :
    (UpdateProductT 7 [wProduct] "id1" { price := some 0 }).2.1 = [wProduct] ∧
    ∀ q : Product,
      RepoOp.update q ∉ (UpdateProductT 7 [wProduct] "id1" { price := some 0 }).2.2 :=
  updateProduct_atomic 7 [wProduct] "id1" { price := some 0 }
    (.invalidInput "product price must be greater than 0") rfl

end ProductService
